import Mathlib

/-!
Verification development for the `jupyterhub` durable-state layer
(`jupyterhub/orm.py`) and its mock test harness
(`jupyterhub/tests/mocking.py`).

The Python code is shallowly embedded: SQLAlchemy rows become Lean
structures, the session becomes an explicit pending/committed pair,
coroutine methods become state-passing functions that also emit a trace
of their externally visible effects, and external collaborators
(`socket.create_connection`, `json.dumps`/`json.loads`,
`url_path_join`, the spawner class, the HTTP client, the readiness
waiters) are passed in as explicit parameters describing their
behaviour.
-/

/-- An opaque JSON-dict-like state blob, as handed around between a
spawner's `get_state`/`clear_state` and the `User.state` column. -/
abbrev StateBlob := List (String × String)

/-- The `servers` table row (`orm.Server`): proto/ip/port/base_url/
cookie_name, with the column defaults of the source.  `ip = none`
models a Python-falsy ip (`None` or the empty string), which the
source tests with `self.ip or ...`. -/
structure Server where
  proto : String := "http"
  ip : Option String := some "localhost"
  port : Nat
  base_url : String := "/"
  cookie_name : String := "cookie"
deriving DecidableEq, Repr

/-- `Server.host`: `"{proto}://{ip}:{port}"` with `self.ip or '*'`. -/
def Server.host (s : Server) : String :=
  s.proto ++ "://" ++ (s.ip.getD "*") ++ ":" ++ toString s.port

/-- `Server.url`: `"{host}{uri}"` where `uri` is the base url. -/
def Server.url (s : Server) : String :=
  s.host ++ s.base_url

/-- Outcome of one `socket.create_connection((host, port))` call:
either a connection, or a `socket.error` carrying an errno. -/
inductive ConnectOutcome
  | success
  | sockError (errno : Int)
deriving DecidableEq, Repr

/-- `errno.ECONNREFUSED` (Linux value; only its identity matters). -/
def ECONNREFUSED : Int := 111

/-- `Server.is_up`: one `socket.create_connection((self.ip or
'localhost', self.port))` probe; success gives `true`, a socket error
with errno `ECONNREFUSED` gives `false`, and any other socket error is
re-raised (modelled as `Except.error` carrying the errno).  The
network is the explicit `connect` parameter. -/
def Server.is_up (connect : String → Nat → ConnectOutcome) (s : Server) :
    Except Int Bool :=
  match connect (s.ip.getD "localhost") s.port with
  | ConnectOutcome.success => Except.ok true
  | ConnectOutcome.sockError e =>
      if e = ECONNREFUSED then Except.ok false else Except.error e

/-- The `hubs` table row (`orm.Hub`): its own `Server`.  (The claims
only involve hubs whose server relationship is populated.) -/
structure Hub where
  server : Server
deriving DecidableEq, Repr

/-- `Hub.api_url`: the hub server's url path-joined with `"api"`;
`join` embeds the external `url_path_join` utility. -/
def Hub.api_url (join : String → List String → String) (h : Hub) : String :=
  join h.server.url ["api"]

/-- The in-memory spawner object, as far as `orm.py` touches it:
its internal state blob (read by `get_state`, reset by `clear_state`),
the `api_token` attribute `spawn` assigns, and whether periodic
polling is running.  `clearedState` records what `clear_state` resets
the blob to, and `pollStatus` what `poll()` reports (an exit status,
or `none` while the process runs); both describe the external spawner
class's behaviour. -/
structure Spawner where
  state : StateBlob
  clearedState : StateBlob
  pollStatus : Option Int
  api_token : Option String := none
  polling : Bool := false
deriving DecidableEq, Repr

/-- Behaviour of a `spawner_class` passed to `User.spawn`: the state
blob a fresh instance carries, what `clear_state` resets it to, what
`start` turns the blob into (or the error it raises), and what
`poll()` reports after `start`. -/
structure SpawnerClass where
  initState : StateBlob
  clearedState : StateBlob
  startResult : StateBlob → Except String StateBlob
  pollStatusAfterStart : Option Int

/-- The persisted columns of a `users` row that `spawn`/`stop`
mutate: the server relationship, the JSON `state` blob, and the
`last_activity` stamp (timestamps are abstract `Nat` instants). -/
structure UserRow where
  server : Option Server := none
  state : Option StateBlob := none
  last_activity : Nat := 0
deriving DecidableEq, Repr

/-- The state `User.spawn`/`User.stop` act on: the user's name, the
in-session (`pending`) and last-`committed` copies of the row, the
process-local `spawner` reference (never persisted), the `servers`
rows added to the session and those committed, and the first `Hub`
row `db.query(Hub).first()` would return. -/
structure World where
  name : String
  pending : UserRow := {}
  committed : UserRow := {}
  spawner : Option Spawner := none
  sessionServers : List Server := []
  committedServers : List Server := []
  firstHub : Option Hub := none
deriving DecidableEq, Repr

/-- `db.commit()`: the pending row and pending server rows become the
committed (durable) state. -/
def World.commit (w : World) : World :=
  { w with committed := w.pending, committedServers := w.sessionServers }

/-- The externally visible effects of `User.spawn`, in the order they
happen. -/
inductive SpawnEvent
  | addServer
  | commit
  | constructSpawner
  | clearState
  | setApiToken
  | startSpawner
  | startPolling
  | storeState
  | stampActivity
  | waitUpHttp
deriving DecidableEq, Repr

/-- How `User.spawn` raises: dereferencing an absent hub
(`AttributeError` on `hub.server`), a failing `spawner.start()`, or a
`wait_up` timeout. -/
inductive SpawnErr
  | hubNoneAttribute
  | startFailed (msg : String)
  | waitUpTimeout
deriving DecidableEq, Repr

/-- Result of a `User.spawn` call: the world as left behind (also on
an exception, since the session object survives the raise) and the
trace of effects that happened. -/
inductive SpawnResult
  | ok (w : World) (tr : List SpawnEvent)
  | err (e : SpawnErr) (w : World) (tr : List SpawnEvent)
deriving DecidableEq, Repr

/-- The world a spawn call left behind, whether it completed or
raised. -/
def SpawnResult.world : SpawnResult → World
  | SpawnResult.ok w _ => w
  | SpawnResult.err _ w _ => w

/-- The effect trace of a spawn call. -/
def SpawnResult.trace : SpawnResult → List SpawnEvent
  | SpawnResult.ok _ tr => tr
  | SpawnResult.err _ _ tr => tr

/-- `if hub is None: hub = db.query(Hub).first()`. -/
def resolveHub (hub dbFirst : Option Hub) : Option Hub :=
  match hub with
  | some h => some h
  | none => dbFirst

/-- Body of `User.spawn` once the hub is resolved to `h`.  Mirrors the
source line by line: build the new `Server` row (cookie name
`'%s-%s' % (hub.server.cookie_name, self.name)`, base url
`url_path_join(base_url, 'user', self.name)`, the remaining columns at
their defaults with `freshPort` the `random_port()` draw), add it and
commit; construct the spawner, `clear_state` it, set its `api_token`;
`yield spawner.start()` (raising propagates), `start_polling`; store
`get_state()` into `self.state`, stamp `last_activity` with `now`,
commit; finally `yield self.server.wait_up(http=True)` (`waitUpOk`
says whether the readiness waiter succeeds within its timeout). -/
def User.spawnWithHub (join : String → List String → String)
    (cls : SpawnerClass) (api_token : String) (freshPort : Nat) (now : Nat)
    (waitUpOk : Bool) (base_url : String) (h : Hub) (w : World) : SpawnResult :=
  let srv : Server :=
    { proto := "http", ip := some "localhost", port := freshPort,
      cookie_name := h.server.cookie_name ++ "-" ++ w.name,
      base_url := join base_url ["user", w.name] }
  let w1 : World :=
    { w with pending := { w.pending with server := some srv },
             sessionServers := w.sessionServers ++ [srv] }
  let w2 := w1.commit
  let sp0 : Spawner :=
    { state := cls.initState, clearedState := cls.clearedState,
      pollStatus := cls.pollStatusAfterStart }
  let sp1 : Spawner := { sp0 with state := sp0.clearedState }
  let sp2 : Spawner := { sp1 with api_token := some api_token }
  let tr0 := [SpawnEvent.addServer, SpawnEvent.commit,
    SpawnEvent.constructSpawner, SpawnEvent.clearState, SpawnEvent.setApiToken]
  match cls.startResult sp2.state with
  | Except.error msg =>
      SpawnResult.err (SpawnErr.startFailed msg)
        { w2 with spawner := some sp2 } (tr0 ++ [SpawnEvent.startSpawner])
  | Except.ok st =>
      let sp3 : Spawner := { sp2 with state := st, polling := true }
      let row : UserRow :=
        { w2.pending with state := some sp3.state, last_activity := now }
      let w3 : World := { w2 with spawner := some sp3, pending := row }
      let w4 := w3.commit
      let tr1 := tr0 ++ [SpawnEvent.startSpawner, SpawnEvent.startPolling,
        SpawnEvent.storeState, SpawnEvent.stampActivity, SpawnEvent.commit]
      if waitUpOk then SpawnResult.ok w4 (tr1 ++ [SpawnEvent.waitUpHttp])
      else SpawnResult.err SpawnErr.waitUpTimeout w4 (tr1 ++ [SpawnEvent.waitUpHttp])

/-- `User.spawn`: resolve the hub (the argument, else the session's
first `Hub` row); with no hub at all, `hub.server` raises before the
new `Server` row is even constructed. -/
def User.spawn (join : String → List String → String)
    (cls : SpawnerClass) (api_token : String) (freshPort : Nat) (now : Nat)
    (waitUpOk : Bool) (base_url : String) (hub : Option Hub) (w : World) :
    SpawnResult :=
  match resolveHub hub w.firstHub with
  | none => SpawnResult.err SpawnErr.hubNoneAttribute w []
  | some h =>
      User.spawnWithHub join cls api_token freshPort now waitUpOk base_url h w

/-- The externally visible effects of `User.stop`, in order. -/
inductive StopEvent
  | stopPolling
  | poll
  | stopSpawner
  | clearState
  | storeState
  | stampActivity
  | detachServer
  | commit
deriving DecidableEq, Repr

/-- `User.stop`: no-op when `self.spawner is None`; otherwise stop
polling, `yield poll()`, `yield stop()` only when the status is
`None`, `clear_state`, store `get_state()` into `self.state`, stamp
`last_activity` with `now`, set `self.server = None`, and commit.  The
in-memory spawner reference itself is never cleared. -/
def User.stop (now : Nat) (w : World) : World × List StopEvent :=
  match w.spawner with
  | none => (w, [])
  | some sp =>
      let sp1 : Spawner := { sp with polling := false }
      let status := sp1.pollStatus
      let tr1 := [StopEvent.stopPolling, StopEvent.poll] ++
        (match status with
         | none => [StopEvent.stopSpawner]
         | some _ => [])
      let sp2 : Spawner := { sp1 with state := sp1.clearedState }
      let w1 : World :=
        { w with spawner := some sp2,
                 pending := { server := none, state := some sp2.state,
                              last_activity := now } }
      let w2 := w1.commit
      (w2, tr1 ++ [StopEvent.clearState, StopEvent.storeState,
        StopEvent.stampActivity, StopEvent.detachServer, StopEvent.commit])

/-- The `proxies` table row (`orm.Proxy`), as `api_request` reads it:
the administrative-API `Server` (the claims only involve configured
proxies, so the relationship is populated) and the `auth_token`. -/
structure ProxyRec where
  api_server : Server
  auth_token : String
deriving DecidableEq, Repr

/-- The route-registration payload `dict(target=..., user=...)` that
`Proxy.add_user` posts. -/
structure RouteBody where
  target : String
  user : String
deriving DecidableEq, Repr

/-- A `tornado.httpclient.HTTPRequest` as `api_request` builds it. -/
structure HTTPReq where
  url : String
  method : String
  headers : List (String × String)
  body : Option String
deriving DecidableEq, Repr

/-- `Proxy.api_request(path, method, body, client)`: join the API
server's url with `path`, JSON-encode the body when it is a dict
(`dumps` embeds `json.dumps`; a string body passes through), and
build the request with the `Authorization: token <auth_token>`
header.  The request is returned (its dispatch via `client.fetch` is
the caller's await). -/
def Proxy.api_request (join : String → List String → String)
    (dumps : RouteBody → String) (p : ProxyRec) (path : String)
    (method : String := "GET") (body : Option (RouteBody ⊕ String) := none) :
    HTTPReq :=
  let bodyStr : Option String := body.map (fun b =>
    match b with
    | Sum.inl d => dumps d
    | Sum.inr s => s)
  { url := join p.api_server.url [path],
    method := method,
    headers := [("Authorization", "token " ++ p.auth_token)],
    body := bodyStr }

/-- A `users` row as the proxy methods read it: the name and the
(possibly absent) server relationship. -/
structure OrmUser where
  name : String
  server : Option Server
deriving DecidableEq, Repr

/-- `Proxy.add_user(user)`: POST to the user's server base url with a
`dict(target=user.server.host, user=user.name)` body.  `none` models
the `AttributeError` a dereference of an absent server would raise. -/
def Proxy.add_user (join : String → List String → String)
    (dumps : RouteBody → String) (p : ProxyRec) (u : OrmUser) :
    Option HTTPReq :=
  match u.server with
  | none => none
  | some srv =>
      some (Proxy.api_request join dumps p srv.base_url "POST"
        (some (Sum.inl { target := srv.host, user := u.name })))

/-- `Proxy.delete_user(user)`: DELETE on the user's server base url,
no body. -/
def Proxy.delete_user (join : String → List String → String)
    (dumps : RouteBody → String) (p : ProxyRec) (u : OrmUser) :
    Option HTTPReq :=
  match u.server with
  | none => none
  | some srv => some (Proxy.api_request join dumps p srv.base_url "DELETE" none)

/-- The `for user in db.query(User): if (user.server):
futures.append(self.add_user(user))` loop of `add_all_users`: calling
the `add_user` coroutine runs it up to its first yield, so the request
is submitted here and the future collected.  (`add_user` returns
`none` exactly when `user.server` is absent, which is what the `if`
guard tests.) -/
def addAllUsersFutures (join : String → List String → String)
    (dumps : RouteBody → String) (p : ProxyRec) :
    List OrmUser → List HTTPReq
  | [] => []
  | u :: rest =>
      match Proxy.add_user join dumps p u with
      | some r => r :: addAllUsersFutures join dumps p rest
      | none => addAllUsersFutures join dumps p rest

/-- One externally visible step of `add_all_users`: a registration
request submitted (first loop), or a submitted registration awaited,
surfacing its own success or failure (second loop). -/
inductive AAUEvent
  | submit (req : HTTPReq)
  | awaitResult (req : HTTPReq) (ok : Bool)
deriving DecidableEq, Repr

/-- `Proxy.add_all_users()`: submit one registration per user with a
non-absent server, then `yield` the collected futures one by one.
`result` says whether a given submitted request succeeds. -/
def Proxy.add_all_users (join : String → List String → String)
    (dumps : RouteBody → String) (result : HTTPReq → Bool) (p : ProxyRec)
    (users : List OrmUser) : List AAUEvent :=
  let futures := addAllUsersFutures join dumps p users
  futures.map AAUEvent.submit ++
    futures.map (fun r => AAUEvent.awaitResult r (result r))

/-- `JSONDict.process_bind_param`: a non-`None` value is serialized
with `json.dumps` (the `dumps` parameter); `None` passes through.
(The unused `dialect` argument is omitted.) -/
def JSONDict.process_bind_param {α : Type} (dumps : α → String)
    (value : Option α) : Option String :=
  match value with
  | none => none
  | some v => some (dumps v)

/-- `JSONDict.process_result_value`: a non-`None` stored string is
deserialized with `json.loads` (the `loads` parameter); `None` passes
through. -/
def JSONDict.process_result_value {α : Type} (loads : String → α)
    (value : Option String) : Option α :=
  match value with
  | none => none
  | some s => some (loads s)

/-- A Python 2 string value as `mock_authenticate` distinguishes
them: a byte string (`str`) or a text string (`unicode`, i.e.
`six.text_type`); the payload is the character content. -/
inductive PyStr
  | bytes (s : String)
  | unicode (s : String)
deriving DecidableEq, Repr

/-- Whether a value is of the `unicode` text type. -/
def PyStr.isUnicode : PyStr → Bool
  | PyStr.bytes _ => false
  | PyStr.unicode _ => true

/-- Python equality on these string values (content comparison; the
cross-type cases are unreachable in `mock_authenticate`, which has
ruled out `unicode` operands before comparing). -/
def pyEq : PyStr → PyStr → Bool
  | PyStr.bytes a, PyStr.bytes b => a == b
  | PyStr.unicode a, PyStr.unicode b => a == b
  | PyStr.bytes a, PyStr.unicode b => a == b
  | PyStr.unicode a, PyStr.bytes b => a == b

/-- `mock_authenticate(username, password, service='login')` from
`tests/mocking.py`: any `unicode`-typed username or password is
rejected with `False` (mimicking simplepam's failure to handle
unicode); otherwise equal credentials return `True`, and unequal ones
fall off the end of the function, returning Python's implicit `None`
(modelled as `none`). -/
def mock_authenticate (username password : PyStr)
    (service : String := "login") : Option Bool :=
  if username.isUnicode then some false
  else if password.isUnicode then some false
  else if pyEq password username then some true
  else none

/-! Concrete sample values used by the witness theorems below. -/

/-- A concrete stand-in for `url_path_join` used in witnesses. -/
def sampleJoin : String → List String → String :=
  fun base segs => segs.foldl (fun acc seg => acc ++ "/" ++ seg) base

/-- A concrete stand-in for `json.dumps` on route bodies, used in
witnesses. -/
def sampleDumps : RouteBody → String :=
  fun d => "target=" ++ d.target ++ ";user=" ++ d.user

/-- A probe that connects. -/
def connProbeSuccess : String → Nat → ConnectOutcome :=
  fun _ _ => ConnectOutcome.success

/-- A probe refused by the peer. -/
def connProbeRefused : String → Nat → ConnectOutcome :=
  fun _ _ => ConnectOutcome.sockError ECONNREFUSED

/-- A probe failing with `ECONNRESET` (104), a non-refused error. -/
def connProbeReset : String → Nat → ConnectOutcome :=
  fun _ _ => ConnectOutcome.sockError 104

/-- A sample server row. -/
def sampleServer : Server := { port := 8081 }

/-- A sample spawner class whose `start` succeeds instantly. -/
def sampleCls : SpawnerClass :=
  { initState := [("pid", "1")],
    clearedState := [],
    startResult := fun st => Except.ok (("pid", "42") :: st),
    pollStatusAfterStart := none }

/-- A sample hub. -/
def sampleHub : Hub := { server := { port := 8000 } }

/-- A sample world whose session holds one hub row. -/
def sampleWorld : World := { name := "alice", firstHub := some sampleHub }

/-- A sample live spawner attached to a user being stopped. -/
def sampleSpawner : Spawner :=
  { state := [("pid", "42")], clearedState := [], pollStatus := none }

/-- A sample world with a live spawner attached. -/
def stoppedWorld : World := { name := "alice", spawner := some sampleSpawner }

/-- A sample world with no spawner and no hub row. -/
def bareWorld : World := { name := "bob" }

/-- A concrete stand-in for `json.dumps` on a `Bool` payload, used in
the codec witness. -/
def boolDumps : Bool → String := fun b => if b then "true" else "false"

/-- The matching stand-in for `json.loads`. -/
def boolLoads : String → Bool := fun s => s == "true"

/-! Claim theorems. -/

/-- Claim C1: `Server.is_up` performs a single TCP connection attempt
to `(ip, or "localhost" when ip is unset, port)` and reports
reachability as a boolean: a successful connection returns `true`, a
probe failing with connection-refused returns `false`, and any other
socket-level error is re-raised unchanged.  The fourth conjunct
expresses the single-probe locality: the result depends only on the
one probe at that address. -/
theorem Server.is_up_spec (connect : String → Nat → ConnectOutcome)
    (s : Server) :
    (connect (s.ip.getD "localhost") s.port = ConnectOutcome.success →
      Server.is_up connect s = Except.ok true) ∧
    (connect (s.ip.getD "localhost") s.port =
        ConnectOutcome.sockError ECONNREFUSED →
      Server.is_up connect s = Except.ok false) ∧
    (∀ e : Int, e ≠ ECONNREFUSED →
      connect (s.ip.getD "localhost") s.port = ConnectOutcome.sockError e →
      Server.is_up connect s = Except.error e) ∧
    (∀ connect2 : String → Nat → ConnectOutcome,
      connect2 (s.ip.getD "localhost") s.port =
          connect (s.ip.getD "localhost") s.port →
      Server.is_up connect2 s = Server.is_up connect s) := by
  refine ⟨?_, ?_, ?_, ?_⟩
  · intro h
    simp [Server.is_up, h]
  · intro h
    simp [Server.is_up, h, ECONNREFUSED]
  · intro e he h
    simp [Server.is_up, h, he]
  · intro connect2 h
    simp [Server.is_up, h]

/-- Witness for C1: the three probe outcomes on a concrete server. -/
theorem Server.is_up_spec_witness :
    Server.is_up connProbeSuccess sampleServer = Except.ok true ∧
    Server.is_up connProbeRefused sampleServer = Except.ok false ∧
    Server.is_up connProbeReset sampleServer = Except.error 104 :=
  ⟨(Server.is_up_spec connProbeSuccess sampleServer).1 rfl,
   (Server.is_up_spec connProbeRefused sampleServer).2.1 rfl,
   (Server.is_up_spec connProbeReset sampleServer).2.2.1 104 (by decide) rfl⟩

/-- Claim C8: the JSON-encoded column codec round-trips.  For a
JSON-serializable value — one the external `json` pair round-trips,
the hypothesis `h` — decoding the encoding yields an equal value, and
an absent value passes through unchanged in both directions. -/
theorem JSONDict.round_trip {α : Type} (dumps : α → String)
    (loads : String → α) (v : α) (h : loads (dumps v) = v) :
    JSONDict.process_result_value loads
        (JSONDict.process_bind_param dumps (some v)) = some v ∧
    JSONDict.process_bind_param dumps (none : Option α) = none ∧
    JSONDict.process_result_value loads (none : Option String) = none := by
  simp [JSONDict.process_bind_param, JSONDict.process_result_value, h]

/-- Witness for C8: the codec round-trips a concrete value through a
concrete serializer pair. -/
theorem JSONDict.round_trip_witness :
    JSONDict.process_result_value boolLoads
        (JSONDict.process_bind_param boolDumps (some true)) = some true ∧
    JSONDict.process_bind_param boolDumps (none : Option Bool) = none ∧
    JSONDict.process_result_value boolLoads (none : Option String) = none :=
  JSONDict.round_trip boolDumps boolLoads true (by decide)

/-- Claim C7: `mock_authenticate` rejects (returns a non-`True`
result for) any call whose username or password carries unicode text
(a `unicode`-typed value, the `six.text_type` check the source
performs), regardless of equality; for byte-string inputs it returns
`True` exactly when the password equals the username and a non-`True`
result otherwise. -/
theorem mock_authenticate_spec (username password : PyStr)
    (service : String) :
    ((username.isUnicode = true ∨ password.isUnicode = true) →
      mock_authenticate username password service ≠ some true) ∧
    (username.isUnicode = false → password.isUnicode = false →
      (mock_authenticate username password service = some true ↔
        pyEq password username = true)) := by
  constructor
  · rintro (h | h)
    · simp [mock_authenticate, h]
    · cases hu : username.isUnicode <;> simp [mock_authenticate, hu, h]
  · intro hu hp
    cases he : pyEq password username <;>
      simp [mock_authenticate, hu, hp, he]

/-- Witness for C7: a unicode username is rejected even when equal; a
matching byte-string pair is accepted; a mismatched one is not. -/
theorem mock_authenticate_spec_witness :
    mock_authenticate (PyStr.unicode "ålice") (PyStr.unicode "ålice")
        "login" ≠ some true ∧
    (mock_authenticate (PyStr.bytes "alice") (PyStr.bytes "alice")
        "login" = some true ↔
      pyEq (PyStr.bytes "alice") (PyStr.bytes "alice") = true) ∧
    (mock_authenticate (PyStr.bytes "alice") (PyStr.bytes "bob")
        "login" = some true ↔
      pyEq (PyStr.bytes "bob") (PyStr.bytes "alice") = true) :=
  ⟨(mock_authenticate_spec (PyStr.unicode "ålice") (PyStr.unicode "ålice")
      "login").1 (Or.inl rfl),
   (mock_authenticate_spec (PyStr.bytes "alice") (PyStr.bytes "alice")
      "login").2 rfl rfl,
   (mock_authenticate_spec (PyStr.bytes "alice") (PyStr.bytes "bob")
      "login").2 rfl rfl⟩

/-- Claim C6: for a user with a non-absent server, `Proxy.add_user`
issues one request whose url is the proxy's API server url path-joined
with the user's server base path, with method POST, the
`Authorization: token <auth_token>` header, and the JSON encoding of
the `target`/`user` dict as body; `Proxy.delete_user` issues the same
url with method DELETE and no body. -/
theorem Proxy.add_delete_user_request (join : String → List String → String)
    (dumps : RouteBody → String) (p : ProxyRec) (u : OrmUser) (srv : Server)
    (h : u.server = some srv) :
    Proxy.add_user join dumps p u =
      some { url := join p.api_server.url [srv.base_url],
             method := "POST",
             headers := [("Authorization", "token " ++ p.auth_token)],
             body := some (dumps { target := srv.host, user := u.name }) } ∧
    Proxy.delete_user join dumps p u =
      some { url := join p.api_server.url [srv.base_url],
             method := "DELETE",
             headers := [("Authorization", "token " ++ p.auth_token)],
             body := none } := by
  simp [Proxy.add_user, Proxy.delete_user, Proxy.api_request, h]

/-- Witness for C6: concrete requests for a concrete user/proxy. -/
theorem Proxy.add_delete_user_request_witness :
    Proxy.add_user sampleJoin sampleDumps
        { api_server := { port := 8001 }, auth_token := "secret" }
        { name := "alice", server := some sampleServer } =
      some { url := sampleJoin
               (Server.url { port := 8001 }) [sampleServer.base_url],
             method := "POST",
             headers := [("Authorization", "token " ++ "secret")],
             body := some (sampleDumps
               { target := sampleServer.host, user := "alice" }) } ∧
    Proxy.delete_user sampleJoin sampleDumps
        { api_server := { port := 8001 }, auth_token := "secret" }
        { name := "alice", server := some sampleServer } =
      some { url := sampleJoin
               (Server.url { port := 8001 }) [sampleServer.base_url],
             method := "DELETE",
             headers := [("Authorization", "token " ++ "secret")],
             body := none } :=
  Proxy.add_delete_user_request sampleJoin sampleDumps
    { api_server := { port := 8001 }, auth_token := "secret" }
    { name := "alice", server := some sampleServer } sampleServer rfl

/-- Claim C10: calling `User.spawn` with no hub argument on a session
holding no `Hub` row fails with the `NoneType` attribute error raised
while deriving the new server's cookie name, before any `Server` row
is added or any commit happens: the world is returned unchanged and
the effect trace is empty. -/
theorem User.spawn_no_hub_error (join : String → List String → String)
    (cls : SpawnerClass) (api_token : String) (freshPort now : Nat)
    (waitUpOk : Bool) (base_url : String) (w : World)
    (h : w.firstHub = none) :
    User.spawn join cls api_token freshPort now waitUpOk base_url none w =
      SpawnResult.err SpawnErr.hubNoneAttribute w [] := by
  simp [User.spawn, resolveHub, h]

/-- Witness for C10: a concrete hub-less spawn attempt. -/
theorem User.spawn_no_hub_error_witness :
    User.spawn sampleJoin sampleCls "tok" 9001 5 true "/" none bareWorld =
      SpawnResult.err SpawnErr.hubNoneAttribute bareWorld [] :=
  User.spawn_no_hub_error sampleJoin sampleCls "tok" 9001 5 true "/"
    bareWorld rfl

/-- Claim C3: the `Server` row created by `User.spawn` with an
explicit hub has cookie name `<hub-cookie-name>-<user-name>` and base
url `base_url` path-joined with `"user"` and the user's name; this
holds of both the in-session row and the committed row, whether or
not the later steps of the spawn succeed. -/
theorem User.spawn_server_row (join : String → List String → String)
    (cls : SpawnerClass) (api_token : String) (freshPort now : Nat)
    (waitUpOk : Bool) (base_url : String) (h : Hub) (w : World) :
    (User.spawn join cls api_token freshPort now waitUpOk base_url
        (some h) w).world.pending.server =
      some { proto := "http", ip := some "localhost", port := freshPort,
             cookie_name := h.server.cookie_name ++ "-" ++ w.name,
             base_url := join base_url ["user", w.name] } ∧
    (User.spawn join cls api_token freshPort now waitUpOk base_url
        (some h) w).world.committed.server =
      some { proto := "http", ip := some "localhost", port := freshPort,
             cookie_name := h.server.cookie_name ++ "-" ++ w.name,
             base_url := join base_url ["user", w.name] } := by
  cases hr : cls.startResult cls.clearedState <;> cases waitUpOk <;>
    simp [User.spawn, resolveHub, User.spawnWithHub, SpawnResult.world,
      World.commit, hr]

/-- Claim C2: every completing `User.spawn` call performs its effects
in the strict order: add the server row, first commit, construct the
spawner (clear its state, set its token), await its start, begin
polling, store the state blob and stamp `last_activity`, second
commit, and await the HTTP readiness wait last.  The extra conjuncts
record that the second commit persisted the stored state: the
committed row equals the pending row and carries the fresh
`last_activity` stamp. -/
theorem User.spawn_ok_sequence (join : String → List String → String)
    (cls : SpawnerClass) (api_token : String) (freshPort now : Nat)
    (waitUpOk : Bool) (base_url : String) (hub : Option Hub) (w : World)
    (w' : World) (tr : List SpawnEvent)
    (h : User.spawn join cls api_token freshPort now waitUpOk base_url hub w =
      SpawnResult.ok w' tr) :
    tr = [SpawnEvent.addServer, SpawnEvent.commit,
      SpawnEvent.constructSpawner, SpawnEvent.clearState,
      SpawnEvent.setApiToken, SpawnEvent.startSpawner,
      SpawnEvent.startPolling, SpawnEvent.storeState,
      SpawnEvent.stampActivity, SpawnEvent.commit,
      SpawnEvent.waitUpHttp] ∧
    w'.committed = w'.pending ∧
    w'.committed.last_activity = now := by
  unfold User.spawn at h
  cases hres : resolveHub hub w.firstHub with
  | none =>
      rw [hres] at h
      exact (SpawnResult.noConfusion h)
  | some hh =>
      rw [hres] at h
      unfold User.spawnWithHub at h
      dsimp only at h
      split at h
      · exact (SpawnResult.noConfusion h)
      · split at h
        · injection h with h1 h2
          subst h1
          subst h2
          exact ⟨rfl, rfl, rfl⟩
        · exact (SpawnResult.noConfusion h)

/-- Witness for C2: a concrete spawn that completes, with the claimed
trace and commit facts. -/
theorem User.spawn_ok_sequence_witness :
    (User.spawn sampleJoin sampleCls "tok" 9001 5 true "/" none
        sampleWorld).trace =
      [SpawnEvent.addServer, SpawnEvent.commit,
        SpawnEvent.constructSpawner, SpawnEvent.clearState,
        SpawnEvent.setApiToken, SpawnEvent.startSpawner,
        SpawnEvent.startPolling, SpawnEvent.storeState,
        SpawnEvent.stampActivity, SpawnEvent.commit,
        SpawnEvent.waitUpHttp] ∧
    (User.spawn sampleJoin sampleCls "tok" 9001 5 true "/" none
        sampleWorld).world.committed =
      (User.spawn sampleJoin sampleCls "tok" 9001 5 true "/" none
        sampleWorld).world.pending ∧
    (User.spawn sampleJoin sampleCls "tok" 9001 5 true "/" none
        sampleWorld).world.committed.last_activity = 5 :=
  User.spawn_ok_sequence sampleJoin sampleCls "tok" 9001 5 true "/" none
    sampleWorld
    (User.spawn sampleJoin sampleCls "tok" 9001 5 true "/" none
      sampleWorld).world
    (User.spawn sampleJoin sampleCls "tok" 9001 5 true "/" none
      sampleWorld).trace
    rfl

/-- Claim C4: `User.stop` is a no-op (returns the world untouched,
with no effects and in particular no commit) when no spawner is
attached; otherwise it leaves the pending row with the spawner's
cleared state, a fresh `last_activity` stamp and no server, commits
those changes, and emits the explicit spawner stop exactly when
`poll()` reported no exit status. -/
theorem User.stop_spec (now : Nat) (w : World) :
    (w.spawner = none → User.stop now w = (w, [])) ∧
    (∀ sp : Spawner, w.spawner = some sp →
      ((User.stop now w).1.pending.state = some sp.clearedState ∧
       (User.stop now w).1.pending.last_activity = now ∧
       (User.stop now w).1.pending.server = none ∧
       (User.stop now w).1.committed = (User.stop now w).1.pending ∧
       StopEvent.commit ∈ (User.stop now w).2 ∧
       (StopEvent.stopSpawner ∈ (User.stop now w).2 ↔
         sp.pollStatus = none))) := by
  constructor
  · intro h
    simp [User.stop, h]
  · intro sp h
    cases hs : sp.pollStatus <;>
      simp [User.stop, h, hs, World.commit]

/-- Witness for C4: the no-op case on a spawnerless world, and the
full sequence on a world with a live spawner. -/
theorem User.stop_spec_witness :
    User.stop 7 bareWorld = (bareWorld, []) ∧
    ((User.stop 7 stoppedWorld).1.pending.state =
        some sampleSpawner.clearedState ∧
     (User.stop 7 stoppedWorld).1.pending.last_activity = 7 ∧
     (User.stop 7 stoppedWorld).1.pending.server = none ∧
     (User.stop 7 stoppedWorld).1.committed =
       (User.stop 7 stoppedWorld).1.pending ∧
     StopEvent.commit ∈ (User.stop 7 stoppedWorld).2 ∧
     (StopEvent.stopSpawner ∈ (User.stop 7 stoppedWorld).2 ↔
       sampleSpawner.pollStatus = none)) :=
  ⟨(User.stop_spec 7 bareWorld).1 rfl,
   (User.stop_spec 7 stoppedWorld).2 sampleSpawner rfl⟩

/-- Claim C9: `User.stop` never clears the in-memory spawner
reference: the spawner is still attached afterwards (with polling off
and its state cleared, as the source mutates the same object), the
user's name, hub row and session server rows are untouched, and an
immediately repeated `stop` is not a no-op — it re-executes the same
poll/terminate/clear-state/commit sequence. -/
theorem User.stop_keeps_spawner (now now2 : Nat) (w : World) (sp : Spawner)
    (h : w.spawner = some sp) :
    (User.stop now w).1.spawner =
      some { sp with polling := false, state := sp.clearedState } ∧
    (User.stop now w).1.name = w.name ∧
    (User.stop now w).1.firstHub = w.firstHub ∧
    (User.stop now w).1.sessionServers = w.sessionServers ∧
    (User.stop now2 (User.stop now w).1).2 = (User.stop now w).2 ∧
    (User.stop now w).2 ≠ [] := by
  cases hs : sp.pollStatus <;>
    simp [User.stop, h, hs, World.commit]

/-- Witness for C9: a concrete stop keeps the spawner attached and a
repeated stop replays the same effect trace. -/
theorem User.stop_keeps_spawner_witness :
    (User.stop 7 stoppedWorld).1.spawner =
      some { sampleSpawner with polling := false, state := sampleSpawner.clearedState } ∧
    (User.stop 7 stoppedWorld).1.name = stoppedWorld.name ∧
    (User.stop 7 stoppedWorld).1.firstHub = stoppedWorld.firstHub ∧
    (User.stop 7 stoppedWorld).1.sessionServers =
      stoppedWorld.sessionServers ∧
    (User.stop 8 (User.stop 7 stoppedWorld).1).2 =
      (User.stop 7 stoppedWorld).2 ∧
    (User.stop 7 stoppedWorld).2 ≠ [] :=
  User.stop_keeps_spawner 7 8 stoppedWorld sampleSpawner rfl

/-- Helper: the future-collection loop of `add_all_users` registers
exactly the users whose server is non-absent, in order. -/
theorem addAllUsersFutures_eq (join : String → List String → String)
    (dumps : RouteBody → String) (p : ProxyRec) (users : List OrmUser) :
    addAllUsersFutures join dumps p users =
      (users.filter fun u => u.server.isSome).filterMap
        (Proxy.add_user join dumps p) := by
  induction users with
  | nil => rfl
  | cons u rest ih =>
      cases hs : u.server <;>
        simp [addAllUsersFutures, Proxy.add_user, hs, List.filter_cons, ih]

/-- Helper: one future per eligible user. -/
theorem addAllUsersFutures_length (join : String → List String → String)
    (dumps : RouteBody → String) (p : ProxyRec) (users : List OrmUser) :
    (addAllUsersFutures join dumps p users).length =
      (users.filter fun u => u.server.isSome).length := by
  induction users with
  | nil => rfl
  | cons u rest ih =>
      cases hs : u.server <;>
        simp [addAllUsersFutures, Proxy.add_user, hs, List.filter_cons, ih]

/-- Claim C5: `Proxy.add_all_users` issues exactly one registration
per user row with a non-absent server (none for the others): its
trace is the submissions of precisely those users' `add_user`
requests, in order, followed by one await per submission surfacing
that registration's own outcome — all submissions happen before any
await. -/
theorem Proxy.add_all_users_spec (join : String → List String → String)
    (dumps : RouteBody → String) (result : HTTPReq → Bool) (p : ProxyRec)
    (users : List OrmUser) :
    Proxy.add_all_users join dumps result p users =
      ((users.filter fun u => u.server.isSome).filterMap
          (Proxy.add_user join dumps p)).map AAUEvent.submit ++
        ((users.filter fun u => u.server.isSome).filterMap
            (Proxy.add_user join dumps p)).map
          (fun r => AAUEvent.awaitResult r (result r)) ∧
    ((users.filter fun u => u.server.isSome).filterMap
        (Proxy.add_user join dumps p)).length =
      (users.filter fun u => u.server.isSome).length := by
  refine ⟨?_, ?_⟩
  · simp [Proxy.add_all_users, addAllUsersFutures_eq]
  · rw [← addAllUsersFutures_eq]
    exact addAllUsersFutures_length join dumps p users
